import Mathlib

/-!
Verification of the state-reconciliation logic of two AWS resource
controllers: `resource_aws_subnet.go` (subnet lifecycle) and the placement
group resource file.  The Go functions are shallowly embedded: every
provider call's outcome is an explicit input datum, pointer dereferences
and out-of-range indexing are modelled by an `Option` result where `none`
stands for a Go runtime panic, and controllers additionally produce the
list of provider calls they issued, in order.
-/

deriving instance DecidableEq for Except

namespace TfAws

/-- A Go `error` value as the controllers observe it: either a structured
`awserr.Error` carrying a stable code string, a plain error, or one of the
errors produced while polling (wrapping, timeout, unexpected state). -/
inductive GoError where
  | aws (code : String)
  | plain (msg : String)
  | wrapped (ctx : String) (e : GoError)
  | timeoutErr (lastStatus : String)
  | unexpectedState (s : String)
deriving DecidableEq, Repr

/-- The checked type assertion `err.(awserr.Error)` together with a code
comparison: true exactly when the error is structured and carries `code`. -/
def GoError.isAws (e : GoError) (code : String) : Bool :=
  match e with
  | .aws c => c = code
  | _ => false

/-- One probe invocation's result `(payload, status, err)` as returned to
the poller by a `resource.StateRefreshFunc`. -/
structure Refresh (α : Type) where
  payload : Option α
  status : String
  err : Option GoError
deriving DecidableEq, Repr

/-- Outcome of a `WaitForState` run.  `panicked` records that some probe
invocation hit undefined behaviour (a Go runtime panic). -/
inductive WaitResult (α : Type) where
  | success (payload : Option α)
  | failure (e : GoError)
  | panicked
deriving DecidableEq, Repr

def WaitResult.isSuccess {α : Type} : WaitResult α → Bool
  | .success _ => true
  | _ => false

/-- Modelled from the spec: the generic Poller
(`helper/resource.StateChangeConf.WaitForState`), which is an external
collaborator not present under `src/`.  Per spec section 4.1: a probe error
stops polling and is surfaced; a status in `target` stops with success; an
empty status or a status in `pending` continues; any other status is an
unrecoverable unexpected-status error; exhausting the probe sequence is the
timeout, carrying the last observed status. -/
def waitForState {α : Type} (pending target : List String) (last : String) :
    List (Option (Refresh α)) → WaitResult α
  | [] => .failure (.timeoutErr last)
  | none :: _ => .panicked
  | some r :: rest =>
    match r.err with
    | some e => .failure e
    | none =>
      if r.status ∈ target then .success r.payload
      else if r.status = "" ∨ r.status ∈ pending then
        waitForState pending target r.status rest
      else .failure (.unexpectedState r.status)

/-- A `resource.StateChangeConf` value: the pending/target vocabularies,
the timeout and minimum interval handed to the poller (in nanoseconds, the
unit of Go `time.Duration`), and the sequence of probe results that the
environment will produce on successive polls. -/
structure StateChangeConf (α : Type) where
  pending : List String
  target : List String
  timeout : Nat
  minTimeout : Nat := 0
  refreshResults : List (Option (Refresh α))

def StateChangeConf.runWait {α : Type} (c : StateChangeConf α) : WaitResult α :=
  waitForState c.pending c.target "" c.refreshResults

def nanosPerSecond : Nat := 1000000000
def nanosPerMinute : Nat := 60 * nanosPerSecond

/-- The result of one Go provider call that returns `(resp, err)`:
`resp = none` models a nil response pointer. -/
structure ConnResp (α : Type) where
  resp : Option α
  err : Option GoError
deriving DecidableEq, Repr

/-- The subnet delete probe body (`resource_aws_subnet.go`, the `Refresh`
closure of `resourceAwsSubnetDelete`): classifies the error of the
`DeleteSubnet` call it has just issued.  The payload `42` is the literal
the source returns in every case. -/
def subnetDeleteRefresh (deleteErr : Option GoError) : Refresh Nat :=
  match deleteErr with
  | none => ⟨some 42, "destroyed", none⟩
  | some e =>
    match e with
    | .aws code =>
      if code = "DependencyViolation" then ⟨some 42, "pending", none⟩
      else if code = "InvalidSubnetID.NotFound" then ⟨some 42, "destroyed", none⟩
      else ⟨some 42, "failure", some (GoError.aws code)⟩
    | _ => ⟨some 42, "failure", some e⟩

/-- One entry of a subnet's `Ipv6CidrBlockAssociationSet`. -/
structure Ipv6Association where
  associationId : String
  ipv6CidrBlock : String
  state : String
deriving DecidableEq, Repr

/-- One record of a `DescribeSubnets` response.  `ipv6Assocs = none` models
a nil `Ipv6CidrBlockAssociationSet` slice. -/
structure SubnetRecord where
  state : String
  ipv6Assocs : Option (List Ipv6Association)
deriving DecidableEq, Repr

/-- A non-nil `DescribeSubnetsOutput`. -/
structure DescribeSubnetsOutput where
  subnets : List SubnetRecord
deriving DecidableEq, Repr

/-- The probe `SubnetStateRefreshFunc`: the subnet creation probe, as a function of
the `DescribeSubnets` call's result.  A `InvalidSubnetID.NotFound` error
makes the source overwrite `resp` with nil and fall through to the
nil-response branch; any other error is returned.  Indexing
`resp.Subnets[0]` on an empty slice is a panic (`none`). -/
def SubnetStateRefreshFunc (r : ConnResp DescribeSubnetsOutput) :
    Option (Refresh SubnetRecord) :=
  match r.err with
  | some e =>
    if e.isAws "InvalidSubnetID.NotFound" then some ⟨none, "", none⟩
    else some ⟨none, "", some e⟩
  | none =>
    match r.resp with
    | none => some ⟨none, "", none⟩
    | some out =>
      match out.subnets with
      | [] => none
      | s :: _ => some ⟨some s, s.state, none⟩

/-- The association-scanning loop of `SubnetIpv6CidrStateRefreshFunc`:
returns the first association in scan order whose id matches. -/
def lookupAssociation (associationId : String) :
    List Ipv6Association → Option Ipv6Association
  | [] => none
  | a :: rest =>
    if a.associationId = associationId then some a
    else lookupAssociation associationId rest

/-- The probe `SubnetIpv6CidrStateRefreshFunc`: the CIDR association probe.  Same
error handling as `SubnetStateRefreshFunc`; on a non-nil response it
indexes `resp.Subnets[0]` (panic on an empty slice), treats a nil
association slice as empty state, and otherwise scans for the tracked
association id. -/
def SubnetIpv6CidrStateRefreshFunc (associationId : String)
    (r : ConnResp DescribeSubnetsOutput) : Option (Refresh Ipv6Association) :=
  match r.err with
  | some e =>
    if e.isAws "InvalidSubnetID.NotFound" then some ⟨none, "", none⟩
    else some ⟨none, "", some e⟩
  | none =>
    match r.resp with
    | none => some ⟨none, "", none⟩
    | some out =>
      match out.subnets with
      | [] => none
      | s :: _ =>
        match s.ipv6Assocs with
        | none => some ⟨none, "", none⟩
        | some assocs =>
          match lookupAssociation associationId assocs with
          | some a => some ⟨some a, a.state, none⟩
          | none => some ⟨none, "", none⟩

/-- The read `resourceAwsSubnetRead`, reduced to its control flow: a
`InvalidSubnetID.NotFound` error clears the id and returns nil, other
errors are returned, a nil response returns nil, and otherwise the source
indexes `resp.Subnets[0]` unconditionally — a panic (`none`) when the
subnet list is empty. -/
def resourceAwsSubnetRead (r : ConnResp DescribeSubnetsOutput) :
    Option (Except GoError Unit) :=
  match r.err with
  | some e =>
    if e.isAws "InvalidSubnetID.NotFound" then some (.ok ())
    else some (.error e)
  | none =>
    match r.resp with
    | none => some (.ok ())
    | some out =>
      match out.subnets with
      | [] => none
      | _ :: _ => some (.ok ())

/-- The subnet resource's configured operation timeouts; `none` means the
caller left the schema default (`Create: 10 min`, `Delete: 32 min`) in
place, which is what `d.Timeout` then returns. -/
structure ConfiguredTimeouts where
  create : Option Nat
  delete : Option Nat
deriving DecidableEq, Repr

def timeoutCreate (t : ConfiguredTimeouts) : Nat :=
  t.create.getD (10 * nanosPerMinute)

def timeoutDelete (t : ConfiguredTimeouts) : Nat :=
  t.delete.getD (32 * nanosPerMinute)

/-- The `locTimeout` computation of `resourceAwsSubnetDelete`: a configured
delete timeout of at most 20 minutes is replaced by a 34-minute floor. -/
def effectiveSubnetDeleteTimeout (t : Nat) : Nat :=
  if t ≤ 20 * nanosPerMinute then 34 * nanosPerMinute else t

/-- The `StateChangeConf` built by `resourceAwsSubnetDelete`: each poll
issues the `DeleteSubnet` call itself, so the refresh sequence is the
sequence of that call's error results fed through `subnetDeleteRefresh`. -/
def subnetDeleteStateConf (deleteTimeout : Nat)
    (deleteErrs : List (Option GoError)) : StateChangeConf Nat :=
  { pending := ["pending"]
    target := ["destroyed"]
    timeout := effectiveSubnetDeleteTimeout deleteTimeout
    minTimeout := nanosPerSecond
    refreshResults := deleteErrs.map (fun e => some (subnetDeleteRefresh e)) }

/-- Environment of one `resourceAwsSubnetDelete` invocation. -/
structure SubnetDeleteEnv where
  timeouts : ConfiguredTimeouts
  lambdaEnisErr : Option GoError
  deleteErrs : List (Option GoError)
deriving DecidableEq, Repr

/-- The controller `resourceAwsSubnetDelete`: delete lingering Lambda ENIs first, then run
the delete-retry wait. -/
def resourceAwsSubnetDelete (env : SubnetDeleteEnv) :
    Option (Except GoError Unit) :=
  match env.lambdaEnisErr with
  | some e => some (.error (.wrapped "Failed to delete Lambda ENIs" e))
  | none =>
    match (subnetDeleteStateConf (timeoutDelete env.timeouts) env.deleteErrs).runWait with
    | .panicked => none
    | .failure e => some (.error (.wrapped "Error deleting subnet" e))
    | .success _ => some (.ok ())

/-- Provider calls a subnet controller can issue, in the order they appear
in a run's trace. -/
inductive Call where
  | createSubnetCall
  | setTagsCall
  | modifyMapPublicIpCall
  | disassociateCidrCall (associationId : String)
  | cidrDisassocWait
  | associateCidrCall (block : String)
  | cidrAssocWait
  | modifyAssignIpv6Call
  | readSubnetCall
deriving DecidableEq, Repr

/-- The diff/state inputs `resourceAwsSubnetUpdate` reads from the
`schema.ResourceData`. `ipv6AssocId` is `GetOk("ipv6_cidr_block_association_id")`
(`none` when unset/empty); `newIpv6Block` is the new value of
`GetChange("ipv6_cidr_block")`. -/
structure UpdateData where
  isNewResource : Bool
  hasChangeIpv6 : Bool
  hasChangeMapPublicIp : Bool
  hasChangeAssignIpv6 : Bool
  ipv6AssocId : Option String
  newIpv6Block : String
deriving DecidableEq, Repr

/-- Environment of one `resourceAwsSubnetUpdate` invocation: the outcome
of each provider call it may issue.  `associateRes = .ok none` models an
`AssociateSubnetCidrBlock` success whose response carries a nil
association pointer (the source dereferences it unconditionally). -/
structure UpdateEnv where
  setTagsErr : Option GoError
  modifyMapErr : Option GoError
  disassociateErr : Option GoError
  disassocDescribes : List (ConnResp DescribeSubnetsOutput)
  associateRes : Except GoError (Option String)
  assocDescribes : List (ConnResp DescribeSubnetsOutput)
  modifyAssignErr : Option GoError
  readResp : ConnResp DescribeSubnetsOutput
deriving DecidableEq, Repr

def errToRes (e : Option GoError) : Except GoError Unit :=
  match e with
  | some err => .error err
  | none => .ok ()

/-- A step of straight-line Go control flow: run `step`; on success append
the continuation's calls and outcome, on early `return err` (or panic)
stop with the calls made so far. -/
def seqStep (step : List Call × Option (Except GoError Unit))
    (k : Unit → List Call × Option (Except GoError Unit)) :
    List Call × Option (Except GoError Unit) :=
  match step.2 with
  | some (.ok _) => (step.1 ++ (k ()).1, (k ()).2)
  | _ => step

/-- The disassociation wait of `resourceAwsSubnetUpdate`. -/
def disassocStateConf (associationId : String)
    (describes : List (ConnResp DescribeSubnetsOutput)) :
    StateChangeConf Ipv6Association :=
  { pending := ["disassociating", "associated"]
    target := ["disassociated"]
    timeout := 3 * nanosPerMinute
    refreshResults := describes.map (SubnetIpv6CidrStateRefreshFunc associationId) }

/-- The association wait of `resourceAwsSubnetUpdate`. -/
def assocStateConf (newAssociationId : String)
    (describes : List (ConnResp DescribeSubnetsOutput)) :
    StateChangeConf Ipv6Association :=
  { pending := ["associating", "disassociated"]
    target := ["associated"]
    timeout := 3 * nanosPerMinute
    refreshResults := describes.map (SubnetIpv6CidrStateRefreshFunc newAssociationId) }

/-- Second half of the IPv6 branch: associate the new block, dereference
the returned association id, and wait for `associated`. -/
def updateIpv6Associate (d : UpdateData) (env : UpdateEnv) :
    List Call × Option (Except GoError Unit) :=
  match env.associateRes with
  | .error e => ([.associateCidrCall d.newIpv6Block], some (.error e))
  | .ok none => ([.associateCidrCall d.newIpv6Block], none)
  | .ok (some newId) =>
    match (assocStateConf newId env.assocDescribes).runWait with
    | .panicked => ([.associateCidrCall d.newIpv6Block, .cidrAssocWait], none)
    | .failure e =>
      ([.associateCidrCall d.newIpv6Block, .cidrAssocWait],
       some (.error (.wrapped "Error waiting for IPv6 CIDR to become associated" e)))
    | .success _ =>
      ([.associateCidrCall d.newIpv6Block, .cidrAssocWait], some (.ok ()))

/-- The IPv6 CIDR reassociation branch of `resourceAwsSubnetUpdate`: when
an association id is present, disassociate it and wait for
`disassociated` before associating the new block. -/
def updateIpv6Branch (d : UpdateData) (env : UpdateEnv) :
    List Call × Option (Except GoError Unit) :=
  match d.ipv6AssocId with
  | none => updateIpv6Associate d env
  | some aid =>
    match env.disassociateErr with
    | some e => ([.disassociateCidrCall aid], some (.error e))
    | none =>
      match (disassocStateConf aid env.disassocDescribes).runWait with
      | .panicked => ([.disassociateCidrCall aid, .cidrDisassocWait], none)
      | .failure e =>
        ([.disassociateCidrCall aid, .cidrDisassocWait],
         some (.error (.wrapped "Error waiting for IPv6 CIDR to become disassociated" e)))
      | .success _ =>
        seqStep ([.disassociateCidrCall aid, .cidrDisassocWait], some (.ok ()))
          (fun _ => updateIpv6Associate d env)

/-- The controller `resourceAwsSubnetUpdate`: set tags, modify `map_public_ip_on_launch`
if changed, run the IPv6 reassociation branch when `ipv6_cidr_block`
changed on a non-new resource, modify `assign_ipv6_address_on_creation`
if changed, then delegate to `resourceAwsSubnetRead`. -/
def resourceAwsSubnetUpdate (d : UpdateData) (env : UpdateEnv) :
    List Call × Option (Except GoError Unit) :=
  seqStep ([.setTagsCall], some (errToRes env.setTagsErr)) fun _ =>
  seqStep (if d.hasChangeMapPublicIp then
             ([.modifyMapPublicIpCall], some (errToRes env.modifyMapErr))
           else ([], some (.ok ()))) fun _ =>
  seqStep (if d.hasChangeIpv6 && !d.isNewResource then updateIpv6Branch d env
           else ([], some (.ok ()))) fun _ =>
  seqStep (if d.hasChangeAssignIpv6 then
             ([.modifyAssignIpv6Call], some (errToRes env.modifyAssignErr))
           else ([], some (.ok ()))) fun _ =>
  ([.readSubnetCall], resourceAwsSubnetRead env.readResp)

/-- The `StateChangeConf` built by `resourceAwsSubnetCreate` for the
pending-to-available wait. -/
def subnetCreateStateConf (createTimeout : Nat)
    (describes : List (ConnResp DescribeSubnetsOutput)) :
    StateChangeConf SubnetRecord :=
  { pending := ["pending"]
    target := ["available"]
    timeout := createTimeout
    refreshResults := describes.map SubnetStateRefreshFunc }

/-- Environment of one `resourceAwsSubnetCreate` invocation:
the `CreateSubnet` call's result (subnet id on success) and the describe
responses driving the availability wait. -/
structure SubnetCreateEnv where
  timeouts : ConfiguredTimeouts
  createRes : Except GoError String
  createDescribes : List (ConnResp DescribeSubnetsOutput)
deriving DecidableEq, Repr

/-- The controller `resourceAwsSubnetCreate`: issue `CreateSubnet`, wait for
`pending → available` with the configured create timeout, then return the
result of `resourceAwsSubnetUpdate` on the same resource data. -/
def resourceAwsSubnetCreate (cenv : SubnetCreateEnv) (d : UpdateData)
    (uenv : UpdateEnv) : List Call × Option (Except GoError Unit) :=
  match cenv.createRes with
  | .error e => ([.createSubnetCall], some (.error (.wrapped "Error creating subnet" e)))
  | .ok _ =>
    match (subnetCreateStateConf (timeoutCreate cenv.timeouts) cenv.createDescribes).runWait with
    | .panicked => ([.createSubnetCall], none)
    | .failure e =>
      ([.createSubnetCall],
       some (.error (.wrapped "Error waiting for subnet to become ready" e)))
    | .success _ =>
      seqStep ([.createSubnetCall], some (.ok ()))
        (fun _ => resourceAwsSubnetUpdate d uenv)

/-- One record of a `DescribePlacementGroups` response. -/
structure PlacementGroupRecord where
  groupName : String
  strategy : String
  state : String
deriving DecidableEq, Repr

/-- A non-nil `DescribePlacementGroupsOutput`. -/
structure DescribePGOutput where
  placementGroups : List PlacementGroupRecord
deriving DecidableEq, Repr

/-- The create-wait probe of `resourceAwsPlacementGroupCreate` (the
`Refresh` closure): an error is returned as-is; a response with zero
placement groups is a definitional "not found" error; otherwise the first
group's state is the status.  `out.PlacementGroups` on a nil `out` is a
panic. -/
def pgCreateRefresh (name : String) (r : ConnResp DescribePGOutput) :
    Option (Refresh DescribePGOutput) :=
  match r.err with
  | some e => some ⟨r.resp, "", some e⟩
  | none =>
    match r.resp with
    | none => none
    | some out =>
      match out.placementGroups with
      | [] =>
        some ⟨some out, "",
              some (.plain ("Placement group not found (" ++ name ++ ")"))⟩
      | pg :: _ => some ⟨some out, pg.state, none⟩

/-- The delete-wait probe of `resourceAwsPlacementGroupDelete`: the source
performs the unchecked type assertion `err.(awserr.Error)` on every
describe error, so an error outside that interface is a panic (`none`); an
`InvalidPlacementGroup.Unknown` code and a zero-group response are both
reinterpreted as status `deleted`. -/
def pgDeleteRefresh (r : ConnResp DescribePGOutput) :
    Option (Refresh DescribePGOutput) :=
  match r.err with
  | some e =>
    match e with
    | .aws code =>
      if code = "InvalidPlacementGroup.Unknown" then some ⟨r.resp, "deleted", none⟩
      else some ⟨r.resp, "", some (GoError.aws code)⟩
    | _ => none
  | none =>
    match r.resp with
    | none => none
    | some out =>
      match out.placementGroups with
      | [] => some ⟨some out, "deleted", none⟩
      | pg :: _ => some ⟨some out, pg.state, none⟩

/-- The read `resourceAwsPlacementGroupRead`: any describe error is returned; on
success the source indexes `out.PlacementGroups[0]` unconditionally — a
panic (`none`) on a nil response or an empty group list. -/
def resourceAwsPlacementGroupRead (r : ConnResp DescribePGOutput) :
    Option (Except GoError Unit) :=
  match r.err with
  | some e => some (.error e)
  | none =>
    match r.resp with
    | none => none
    | some out =>
      match out.placementGroups with
      | [] => none
      | _ :: _ => some (.ok ())

/-- A concrete update input: non-new resource with a pending
`ipv6_cidr_block` change and an existing association id `assoc-0`. -/
def c2Data : UpdateData := ⟨false, true, false, false, some "assoc-0", "blk"⟩

/-- A concrete update environment in which every call succeeds and each
wait converges on its first poll. -/
def c2Env : UpdateEnv :=
  ⟨none, none, none,
   [⟨some ⟨[⟨"available", some [⟨"assoc-0", "cb0", "disassociated"⟩]⟩]⟩, none⟩],
   .ok (some "assoc-1"),
   [⟨some ⟨[⟨"available", some [⟨"assoc-1", "blk", "associated"⟩]⟩]⟩, none⟩],
   none, ⟨none, none⟩⟩

/-! ## Helper lemmas -/

theorem lookupAssociation_eq_find (aid : String) (l : List Ipv6Association) :
    lookupAssociation aid l = l.find? (fun x => x.associationId == aid) := by
  induction l with
  | nil => rfl
  | cons a rest ih =>
    by_cases h : a.associationId = aid
    · simp [lookupAssociation, h, List.find?]
    · have hb : (a.associationId == aid) = false := by simp [h]
      simp [lookupAssociation, h, List.find?, ih, hb]

theorem seqStep_trace_ok (s : List Call × Option (Except GoError Unit))
    (k : Unit → List Call × Option (Except GoError Unit))
    (h : s.2 = some (.ok ())) : seqStep s k = (s.1 ++ (k ()).1, (k ()).2) := by
  unfold seqStep
  rw [h]

theorem seqStep_stop (s : List Call × Option (Except GoError Unit))
    (k : Unit → List Call × Option (Except GoError Unit))
    (h : ∀ u : Unit, s.2 ≠ some (.ok u)) : seqStep s k = s := by
  unfold seqStep
  split
  · next heq => exact absurd heq (h _)
  · rfl

theorem seqStep_trace_split (s : List Call × Option (Except GoError Unit))
    (k : Unit → List Call × Option (Except GoError Unit)) :
    ∃ t, (seqStep s k).1 = s.1 ++ t := by
  unfold seqStep
  split
  · exact ⟨(k ()).1, rfl⟩
  · exact ⟨[], (List.append_nil _).symm⟩

theorem seqStep_mem_strong {x : Call} (s : List Call × Option (Except GoError Unit))
    (k : Unit → List Call × Option (Except GoError Unit))
    (hx : x ∈ (seqStep s k).1) :
    x ∈ s.1 ∨ (s.2 = some (.ok ()) ∧ x ∈ (k ()).1) := by
  unfold seqStep at hx
  split at hx
  · next u heq =>
    rcases List.mem_append.mp hx with h | h
    · exact Or.inl h
    · exact Or.inr ⟨by cases u; exact heq, h⟩
  · exact Or.inl hx

theorem errToRes_eq_ok {e : Option GoError} (h : errToRes e = .ok ()) : e = none := by
  cases e with
  | none => rfl
  | some err => simp [errToRes] at h

/-- Every call in an update run's trace is either one of the four fixed
plumbing calls or a call of the IPv6 branch, the latter only when the
branch condition held and the stages before it succeeded. -/
theorem update_trace_cases (d : UpdateData) (env : UpdateEnv) {x : Call}
    (hx : x ∈ (resourceAwsSubnetUpdate d env).1) :
    x ∈ [Call.setTagsCall, Call.modifyMapPublicIpCall,
         Call.modifyAssignIpv6Call, Call.readSubnetCall]
    ∨ ((d.hasChangeIpv6 && !d.isNewResource) = true
        ∧ env.setTagsErr = none
        ∧ (d.hasChangeMapPublicIp = true → env.modifyMapErr = none)
        ∧ x ∈ (updateIpv6Branch d env).1) := by
  unfold resourceAwsSubnetUpdate at hx
  rcases seqStep_mem_strong _ _ hx with h1 | ⟨hok1, h1⟩
  · left; simp at h1; simp [h1]
  · have hset : env.setTagsErr = none := by
      simp only at hok1
      exact errToRes_eq_ok (Option.some_injective _ hok1)
    rcases seqStep_mem_strong _ _ h1 with h2 | ⟨hok2, h2⟩
    · left
      by_cases hm : d.hasChangeMapPublicIp
      · simp [hm] at h2; simp [h2]
      · simp [hm] at h2
    · have hmap : d.hasChangeMapPublicIp = true → env.modifyMapErr = none := by
        intro hm
        simp only [hm, if_true] at hok2
        exact errToRes_eq_ok (Option.some_injective _ hok2)
      rcases seqStep_mem_strong _ _ h2 with h3 | ⟨_, h3⟩
      · by_cases hc : (d.hasChangeIpv6 && !d.isNewResource) = true
        · right; rw [if_pos hc] at h3; exact ⟨hc, hset, hmap, h3⟩
        · rw [if_neg hc] at h3; simp at h3
      · rcases seqStep_mem_strong _ _ h3 with h4 | ⟨_, h4⟩
        · left
          by_cases ha : d.hasChangeAssignIpv6
          · simp [ha] at h4; simp [h4]
          · simp [ha] at h4
        · left; simp at h4; simp [h4]

theorem mem_left_of_append_cons {α : Type} (c : α) :
    ∀ (pre l1 tail l2 : List α), c ∉ pre → pre ++ tail = l1 ++ c :: l2 →
      ∀ x ∈ pre, x ∈ l1
  | [], _, _, _, _, _ => by intro x hx; simp at hx
  | p :: pr, [], tail, l2, hc, h => by
    simp only [List.cons_append, List.nil_append, List.cons.injEq] at h
    exact absurd (by simp [h.1]) hc
  | p :: pr, q :: l1', tail, l2, hc, h => by
    simp only [List.cons_append, List.cons.injEq] at h
    obtain ⟨hpq, h2⟩ := h
    intro x hx
    rcases List.mem_cons.mp hx with hxp | hxpr
    · subst hxp; simp [hpq]
    · have hrec := mem_left_of_append_cons c pr l1' tail l2
        (fun hcm => hc (by simp [hcm])) h2 x hxpr
      simp [hrec]

/-- If the IPv6 branch is enabled and produces an error result, the whole
update run produces an error result. -/
theorem update_result_of_branch_error (d : UpdateData) (env : UpdateEnv)
    (hcond : (d.hasChangeIpv6 && !d.isNewResource) = true)
    (e' : GoError) (hbr : (updateIpv6Branch d env).2 = some (.error e')) :
    ∃ err, (resourceAwsSubnetUpdate d env).2 = some (.error err) := by
  unfold resourceAwsSubnetUpdate
  cases hset : env.setTagsErr with
  | some e => exact ⟨e, by simp [seqStep, errToRes, hset]⟩
  | none =>
    by_cases hm : d.hasChangeMapPublicIp
    · cases hmm : env.modifyMapErr with
      | some e => exact ⟨e, by simp [seqStep, errToRes, hset, hm, hmm]⟩
      | none => exact ⟨e', by simp [seqStep, errToRes, hset, hm, hmm, hcond, hbr]⟩
    · exact ⟨e', by simp [seqStep, errToRes, hset, hm, hcond, hbr]⟩

/-- An associate call inside the IPv6 branch's trace means the
disassociate call succeeded and the disassociation wait converged. -/
theorem branch_assoc_mem (d : UpdateData) (env : UpdateEnv) (aid : String)
    (h3 : d.ipv6AssocId = some aid) {b : String}
    (hb : Call.associateCidrCall b ∈ (updateIpv6Branch d env).1) :
    env.disassociateErr = none
    ∧ (disassocStateConf aid env.disassocDescribes).runWait.isSuccess = true := by
  cases hdis : env.disassociateErr with
  | some e => simp [updateIpv6Branch, h3, hdis] at hb
  | none =>
    cases hw : (disassocStateConf aid env.disassocDescribes).runWait with
    | panicked => simp [updateIpv6Branch, h3, hdis, hw] at hb
    | failure e => simp [updateIpv6Branch, h3, hdis, hw] at hb
    | success p => exact ⟨rfl, rfl⟩

/-- When the branch is reached and the disassociation wait succeeds, the
update trace decomposes into a prefix ending with the disassociate call
and its wait, holding no associate call, followed by the rest. -/
theorem update_trace_prefix_of_success (d : UpdateData) (env : UpdateEnv)
    (aid : String)
    (hcond : (d.hasChangeIpv6 && !d.isNewResource) = true)
    (h3 : d.ipv6AssocId = some aid)
    (hset : env.setTagsErr = none)
    (hmap : d.hasChangeMapPublicIp = true → env.modifyMapErr = none)
    (hdis : env.disassociateErr = none)
    (p : Option Ipv6Association)
    (hw : (disassocStateConf aid env.disassocDescribes).runWait = .success p) :
    ∃ pre tail, (resourceAwsSubnetUpdate d env).1 = pre ++ tail
      ∧ Call.disassociateCidrCall aid ∈ pre
      ∧ Call.cidrDisassocWait ∈ pre
      ∧ (∀ b, Call.associateCidrCall b ∉ pre) := by
  have hbr : updateIpv6Branch d env
      = seqStep ([.disassociateCidrCall aid, .cidrDisassocWait], some (.ok ()))
          (fun _ => updateIpv6Associate d env) := by
    simp [updateIpv6Branch, h3, hdis, hw]
  obtain ⟨t, ht⟩ := seqStep_trace_split
    ([.disassociateCidrCall aid, .cidrDisassocWait], some (.ok ()))
    (fun _ => updateIpv6Associate d env)
  have hbtr : (updateIpv6Branch d env).1
      = [Call.disassociateCidrCall aid, Call.cidrDisassocWait] ++ t := by
    rw [hbr]; exact ht
  unfold resourceAwsSubnetUpdate
  rw [seqStep_trace_ok _ _ (by simp [hset, errToRes])]
  by_cases hm : d.hasChangeMapPublicIp
  · obtain ⟨t2, ht2⟩ := seqStep_trace_split
      (if d.hasChangeIpv6 && !d.isNewResource then updateIpv6Branch d env
       else ([], some (.ok ())))
      (fun _ =>
        seqStep (if d.hasChangeAssignIpv6 then
                   ([.modifyAssignIpv6Call], some (errToRes env.modifyAssignErr))
                 else ([], some (.ok ())))
          (fun _ => ([.readSubnetCall], resourceAwsSubnetRead env.readResp)))
    refine ⟨[Call.setTagsCall, Call.modifyMapPublicIpCall,
             Call.disassociateCidrCall aid, Call.cidrDisassocWait],
            t ++ t2, ?_, by simp, by simp, by intro b; simp⟩
    rw [seqStep_trace_ok _ _ (by simp [hm, hmap hm, errToRes])]
    simp only [hm, if_true]
    rw [ht2, if_pos hcond, hbtr]
    simp
  · obtain ⟨t2, ht2⟩ := seqStep_trace_split
      (if d.hasChangeIpv6 && !d.isNewResource then updateIpv6Branch d env
       else ([], some (.ok ())))
      (fun _ =>
        seqStep (if d.hasChangeAssignIpv6 then
                   ([.modifyAssignIpv6Call], some (errToRes env.modifyAssignErr))
                 else ([], some (.ok ())))
          (fun _ => ([.readSubnetCall], resourceAwsSubnetRead env.readResp)))
    refine ⟨[Call.setTagsCall,
             Call.disassociateCidrCall aid, Call.cidrDisassocWait],
            t ++ t2, ?_, by simp, by simp, by intro b; simp⟩
    rw [seqStep_trace_ok _ _ (by simp [hm, errToRes])]
    simp only [hm, if_false]
    rw [ht2, if_pos hcond, hbtr]
    simp

/-! ## Claim theorems -/

/-- Claim C1: in the subnet delete probe, a `DependencyViolation` error is
reported as status `pending` with nil error, an `InvalidSubnetID.NotFound`
error as status `destroyed` with nil error, any other error is returned as
an error from the probe, and a nil error is reported as `destroyed` with
nil error. -/
theorem subnet_delete_probe_classification (e : Option GoError) :
    (e = none → subnetDeleteRefresh e = ⟨some 42, "destroyed", none⟩)
    ∧ (e = some (.aws "DependencyViolation") →
        subnetDeleteRefresh e = ⟨some 42, "pending", none⟩)
    ∧ (e = some (.aws "InvalidSubnetID.NotFound") →
        subnetDeleteRefresh e = ⟨some 42, "destroyed", none⟩)
    ∧ (∀ err, e = some err → err ≠ .aws "DependencyViolation" →
        err ≠ .aws "InvalidSubnetID.NotFound" →
        (subnetDeleteRefresh e).err = some err) := by
  refine ⟨?_, ?_, ?_, ?_⟩
  · rintro rfl; rfl
  · rintro rfl; rfl
  · rintro rfl; rfl
  · rintro err rfl h1 h2
    cases err with
    | aws code =>
      have hc1 : code ≠ "DependencyViolation" := fun h => h1 (by rw [h])
      have hc2 : code ≠ "InvalidSubnetID.NotFound" := fun h => h2 (by rw [h])
      simp [subnetDeleteRefresh, hc1, hc2]
    | plain m => rfl
    | wrapped c e => rfl
    | timeoutErr s => rfl
    | unexpectedState s => rfl

theorem subnet_delete_probe_classification_witness :
    subnetDeleteRefresh (some (.aws "DependencyViolation")) = ⟨some 42, "pending", none⟩
    ∧ subnetDeleteRefresh (some (.aws "InvalidSubnetID.NotFound")) = ⟨some 42, "destroyed", none⟩
    ∧ subnetDeleteRefresh none = ⟨some 42, "destroyed", none⟩
    ∧ (subnetDeleteRefresh (some (.aws "Boom"))).err = some (.aws "Boom") :=
  ⟨(subnet_delete_probe_classification _).2.1 rfl,
   (subnet_delete_probe_classification _).2.2.1 rfl,
   (subnet_delete_probe_classification _).1 rfl,
   (subnet_delete_probe_classification _).2.2.2 _ rfl (by decide) (by decide)⟩

/-- Claim C3: the poll timeout handed to the subnet delete wait is 34
minutes whenever the configured delete timeout is at most 20 minutes, and
the configured delete timeout unchanged otherwise; in particular the
schema default of 32 minutes passes through unchanged. -/
theorem subnet_delete_timeout_floor (cts : ConfiguredTimeouts)
    (errs : List (Option GoError)) :
    (timeoutDelete cts ≤ 20 * nanosPerMinute →
      (subnetDeleteStateConf (timeoutDelete cts) errs).timeout = 34 * nanosPerMinute)
    ∧ (¬ timeoutDelete cts ≤ 20 * nanosPerMinute →
      (subnetDeleteStateConf (timeoutDelete cts) errs).timeout = timeoutDelete cts)
    ∧ (cts.delete = none →
      (subnetDeleteStateConf (timeoutDelete cts) errs).timeout = 32 * nanosPerMinute) := by
  refine ⟨?_, ?_, ?_⟩
  · intro h
    simp [subnetDeleteStateConf, effectiveSubnetDeleteTimeout, h]
  · intro h
    simp [subnetDeleteStateConf, effectiveSubnetDeleteTimeout, h]
  · intro h
    have h32 : ¬ (32 * nanosPerMinute ≤ 20 * nanosPerMinute) := by decide
    simp [subnetDeleteStateConf, effectiveSubnetDeleteTimeout, timeoutDelete, h, h32]

theorem subnet_delete_timeout_floor_witness :
    (subnetDeleteStateConf (timeoutDelete ⟨none, some (10 * nanosPerMinute)⟩) []).timeout
      = 34 * nanosPerMinute
    ∧ (subnetDeleteStateConf (timeoutDelete ⟨none, some (25 * nanosPerMinute)⟩) []).timeout
      = timeoutDelete ⟨none, some (25 * nanosPerMinute)⟩
    ∧ (subnetDeleteStateConf (timeoutDelete ⟨none, none⟩) []).timeout
      = 32 * nanosPerMinute :=
  ⟨(subnet_delete_timeout_floor _ _).1 (by decide),
   (subnet_delete_timeout_floor _ _).2.1 (by decide),
   (subnet_delete_timeout_floor _ _).2.2 rfl⟩

/-- Claim C5: the placement-group probes classify absence asymmetrically —
a zero-group error-free describe response is a "not found" error during
the create-wait but status `deleted` during the delete-wait, and an
`InvalidPlacementGroup.Unknown` describe error during the delete-wait is
also status `deleted` with nil error. -/
theorem pg_probe_absence_asymmetry (name : String) (out : DescribePGOutput)
    (h : out.placementGroups = []) :
    (∃ msg, pgCreateRefresh name ⟨some out, none⟩ =
      some ⟨some out, "", some (.plain msg)⟩)
    ∧ pgDeleteRefresh ⟨some out, none⟩ = some ⟨some out, "deleted", none⟩
    ∧ (∀ resp, pgDeleteRefresh ⟨resp, some (.aws "InvalidPlacementGroup.Unknown")⟩
        = some ⟨resp, "deleted", none⟩) := by
  refine ⟨⟨"Placement group not found (" ++ name ++ ")", ?_⟩, ?_, ?_⟩
  · simp [pgCreateRefresh, h]
  · simp [pgDeleteRefresh, h]
  · intro resp; rfl

theorem pg_probe_absence_asymmetry_witness :
    (∃ msg, pgCreateRefresh "pg-1" ⟨some ⟨[]⟩, none⟩ =
      some ⟨some ⟨[]⟩, "", some (.plain msg)⟩)
    ∧ pgDeleteRefresh ⟨some ⟨[]⟩, none⟩ = some ⟨some ⟨[]⟩, "deleted", none⟩
    ∧ (∀ resp, pgDeleteRefresh ⟨resp, some (.aws "InvalidPlacementGroup.Unknown")⟩
        = some ⟨resp, "deleted", none⟩) :=
  pg_probe_absence_asymmetry "pg-1" ⟨[]⟩ rfl

/-- Claim C6: the subnet creation probe returns nil payload, empty status
and nil error on an `InvalidSubnetID.NotFound` describe error or a nil
response, returns any other describe error as an error, and otherwise
returns the first subnet record with its raw state string and nil
error. -/
theorem subnet_create_probe_classification (r : ConnResp DescribeSubnetsOutput) :
    (∀ e, r.err = some e → e.isAws "InvalidSubnetID.NotFound" = true →
      SubnetStateRefreshFunc r = some ⟨none, "", none⟩)
    ∧ (r.err = none → r.resp = none →
      SubnetStateRefreshFunc r = some ⟨none, "", none⟩)
    ∧ (∀ e, r.err = some e → e.isAws "InvalidSubnetID.NotFound" = false →
      SubnetStateRefreshFunc r = some ⟨none, "", some e⟩)
    ∧ (∀ out s rest, r.err = none → r.resp = some out → out.subnets = s :: rest →
      SubnetStateRefreshFunc r = some ⟨some s, s.state, none⟩) := by
  obtain ⟨resp, err⟩ := r
  refine ⟨?_, ?_, ?_, ?_⟩
  · rintro e rfl he
    simp [SubnetStateRefreshFunc, he]
  · rintro rfl rfl
    rfl
  · rintro e rfl he
    simp [SubnetStateRefreshFunc, he]
  · rintro out s rest rfl rfl h3
    simp [SubnetStateRefreshFunc, h3]

theorem subnet_create_probe_classification_witness :
    SubnetStateRefreshFunc ⟨some ⟨[]⟩, some (.aws "InvalidSubnetID.NotFound")⟩
      = some ⟨none, "", none⟩
    ∧ SubnetStateRefreshFunc ⟨none, none⟩ = some ⟨none, "", none⟩
    ∧ SubnetStateRefreshFunc ⟨none, some (.aws "Throttled")⟩
      = some ⟨none, "", some (.aws "Throttled")⟩
    ∧ SubnetStateRefreshFunc ⟨some ⟨[⟨"available", none⟩]⟩, none⟩
      = some ⟨some ⟨"available", none⟩, "available", none⟩ :=
  ⟨(subnet_create_probe_classification _).1 _ rfl (by decide),
   (subnet_create_probe_classification _).2.1 rfl rfl,
   (subnet_create_probe_classification _).2.2.1 _ rfl (by decide),
   (subnet_create_probe_classification _).2.2.2 _ ⟨"available", none⟩ [] rfl rfl rfl⟩

/-- Claim C7: the CIDR association probe, on a non-nil error-free describe
response whose first subnet exists, returns the first association matching
the tracked id together with its state and nil error, and returns nil
payload, empty status, nil error when the association slice is nil or no
entry matches — never an error. -/
theorem subnet_cidr_probe_scan (aid : String) (r : ConnResp DescribeSubnetsOutput)
    (out : DescribeSubnetsOutput) (s : SubnetRecord) (rest : List SubnetRecord)
    (h1 : r.err = none) (h2 : r.resp = some out) (h3 : out.subnets = s :: rest) :
    (∀ assocs a, s.ipv6Assocs = some assocs →
      assocs.find? (fun x => x.associationId == aid) = some a →
      SubnetIpv6CidrStateRefreshFunc aid r = some ⟨some a, a.state, none⟩)
    ∧ (s.ipv6Assocs = none →
      SubnetIpv6CidrStateRefreshFunc aid r = some ⟨none, "", none⟩)
    ∧ (∀ assocs, s.ipv6Assocs = some assocs →
      assocs.find? (fun x => x.associationId == aid) = none →
      SubnetIpv6CidrStateRefreshFunc aid r = some ⟨none, "", none⟩)
    ∧ (∃ res, SubnetIpv6CidrStateRefreshFunc aid r = some res ∧ res.err = none) := by
  obtain ⟨resp, err⟩ := r
  simp only at h1 h2
  subst h1; subst h2
  refine ⟨?_, ?_, ?_, ?_⟩
  · intro assocs a ha hfind
    rw [← lookupAssociation_eq_find] at hfind
    simp [SubnetIpv6CidrStateRefreshFunc, h3, ha, hfind]
  · intro ha
    simp [SubnetIpv6CidrStateRefreshFunc, h3, ha]
  · intro assocs ha hfind
    rw [← lookupAssociation_eq_find] at hfind
    simp [SubnetIpv6CidrStateRefreshFunc, h3, ha, hfind]
  · simp only [SubnetIpv6CidrStateRefreshFunc, h3]
    cases ha : s.ipv6Assocs with
    | none => exact ⟨⟨none, "", none⟩, rfl, rfl⟩
    | some assocs =>
      cases hfind : lookupAssociation aid assocs with
      | none => exact ⟨⟨none, "", none⟩, by simp [hfind], rfl⟩
      | some a => exact ⟨⟨some a, a.state, none⟩, by simp [hfind], rfl⟩

theorem subnet_cidr_probe_scan_witness :
    SubnetIpv6CidrStateRefreshFunc "assoc-1"
        ⟨some ⟨[⟨"available", some [⟨"assoc-0", "cb0", "associated"⟩,
                                    ⟨"assoc-1", "cb1", "disassociating"⟩]⟩]⟩, none⟩
      = some ⟨some ⟨"assoc-1", "cb1", "disassociating"⟩, "disassociating", none⟩
    ∧ SubnetIpv6CidrStateRefreshFunc "assoc-1" ⟨some ⟨[⟨"available", none⟩]⟩, none⟩
      = some ⟨none, "", none⟩
    ∧ SubnetIpv6CidrStateRefreshFunc "assoc-9"
        ⟨some ⟨[⟨"available", some [⟨"assoc-0", "cb0", "associated"⟩]⟩]⟩, none⟩
      = some ⟨none, "", none⟩ :=
  ⟨(subnet_cidr_probe_scan "assoc-1" _ _ _ [] rfl rfl rfl).1 _ _ rfl (by decide),
   (subnet_cidr_probe_scan "assoc-1" _ _ _ [] rfl rfl rfl).2.1 rfl,
   (subnet_cidr_probe_scan "assoc-9" _ _ _ [] rfl rfl rfl).2.2.1 _ rfl (by decide)⟩

/-- Claim C9: the read operations and the creation probe index the first
element of the returned list without a length check, so an error-free
non-nil response with an empty list is a runtime panic (modelled `none`),
not an error return. -/
theorem read_first_element_unchecked :
    resourceAwsPlacementGroupRead ⟨some ⟨[]⟩, none⟩ = none
    ∧ resourceAwsSubnetRead ⟨some ⟨[]⟩, none⟩ = none
    ∧ SubnetStateRefreshFunc ⟨some ⟨[]⟩, none⟩ = none :=
  ⟨rfl, rfl, rfl⟩

/-- Claim C10: the placement-group delete-wait probe performs an unchecked
`err.(awserr.Error)` assertion, so a describe error outside that interface
is a runtime panic (modelled `none`), while it is total on errors carrying
a code; the subnet probes guard the same assertion and return the raw
error instead. -/
theorem pg_delete_probe_unchecked_assertion (m : String)
    (resp : Option DescribePGOutput) (srsp : Option DescribeSubnetsOutput)
    (aid : String) :
    pgDeleteRefresh ⟨resp, some (.plain m)⟩ = none
    ∧ (∀ code, ∃ res, pgDeleteRefresh ⟨resp, some (.aws code)⟩ = some res)
    ∧ SubnetStateRefreshFunc ⟨srsp, some (.plain m)⟩
      = some ⟨none, "", some (.plain m)⟩
    ∧ SubnetIpv6CidrStateRefreshFunc aid ⟨srsp, some (.plain m)⟩
      = some ⟨none, "", some (.plain m)⟩ := by
  refine ⟨rfl, ?_, rfl, rfl⟩
  intro code
  by_cases h : code = "InvalidPlacementGroup.Unknown"
  · exact ⟨⟨resp, "deleted", none⟩, by simp [pgDeleteRefresh, h]⟩
  · exact ⟨⟨resp, "", some (.aws code)⟩, by simp [pgDeleteRefresh, h]⟩

/-- Claim C4: on a newly created resource the update skips the IPv6 CIDR
reassociation branch entirely — no disassociate call, no associate call,
no CIDR-state wait — regardless of a pending `ipv6_cidr_block` change,
and the run is identical to one with no such pending change. -/
theorem update_new_resource_skips_cidr (d : UpdateData) (env : UpdateEnv)
    (h : d.isNewResource = true) :
    (∀ a, Call.disassociateCidrCall a ∉ (resourceAwsSubnetUpdate d env).1)
    ∧ (∀ b, Call.associateCidrCall b ∉ (resourceAwsSubnetUpdate d env).1)
    ∧ Call.cidrDisassocWait ∉ (resourceAwsSubnetUpdate d env).1
    ∧ Call.cidrAssocWait ∉ (resourceAwsSubnetUpdate d env).1
    ∧ resourceAwsSubnetUpdate d env
      = resourceAwsSubnetUpdate { d with hasChangeIpv6 := false } env := by
  have hnotb : ∀ x : Call, x ∈ (resourceAwsSubnetUpdate d env).1 →
      x ∈ [Call.setTagsCall, Call.modifyMapPublicIpCall,
           Call.modifyAssignIpv6Call, Call.readSubnetCall] := by
    intro x hx
    rcases update_trace_cases d env hx with hfix | ⟨hc, _⟩
    · exact hfix
    · rw [h] at hc; simp at hc
  refine ⟨?_, ?_, ?_, ?_, ?_⟩
  · intro a ha; have := hnotb _ ha; simp at this
  · intro b hb; have := hnotb _ hb; simp at this
  · intro hw; have := hnotb _ hw; simp at this
  · intro hw; have := hnotb _ hw; simp at this
  · obtain ⟨isNew, ci, cm, ca, aid, nb⟩ := d
    simp only at h
    subst h
    simp [resourceAwsSubnetUpdate]

theorem update_new_resource_skips_cidr_witness :
    (∀ a, Call.disassociateCidrCall a ∉
      (resourceAwsSubnetUpdate ⟨true, true, false, false, some "assoc-0", "blk"⟩
        ⟨none, none, none, [], .ok (some "assoc-1"), [], none, ⟨none, none⟩⟩).1)
    ∧ (∀ b, Call.associateCidrCall b ∉
      (resourceAwsSubnetUpdate ⟨true, true, false, false, some "assoc-0", "blk"⟩
        ⟨none, none, none, [], .ok (some "assoc-1"), [], none, ⟨none, none⟩⟩).1)
    ∧ Call.cidrDisassocWait ∉
      (resourceAwsSubnetUpdate ⟨true, true, false, false, some "assoc-0", "blk"⟩
        ⟨none, none, none, [], .ok (some "assoc-1"), [], none, ⟨none, none⟩⟩).1
    ∧ Call.cidrAssocWait ∉
      (resourceAwsSubnetUpdate ⟨true, true, false, false, some "assoc-0", "blk"⟩
        ⟨none, none, none, [], .ok (some "assoc-1"), [], none, ⟨none, none⟩⟩).1
    ∧ resourceAwsSubnetUpdate ⟨true, true, false, false, some "assoc-0", "blk"⟩
        ⟨none, none, none, [], .ok (some "assoc-1"), [], none, ⟨none, none⟩⟩
      = resourceAwsSubnetUpdate
          ({ (⟨true, true, false, false, some "assoc-0", "blk"⟩ : UpdateData) with
             hasChangeIpv6 := false })
          ⟨none, none, none, [], .ok (some "assoc-1"), [], none, ⟨none, none⟩⟩ :=
  update_new_resource_skips_cidr _ _ rfl

/-- Claim C8: the create wait uses pending `{"pending"}`, target
`{"available"}` and the configured create timeout (10 minutes when the
schema default is in place); a failing create call or wait returns an
error without invoking the update, and a successful create returns the
result of invoking the update on the same resource data. -/
theorem create_delegates_to_update (cenv : SubnetCreateEnv) (d : UpdateData)
    (uenv : UpdateEnv) :
    ((subnetCreateStateConf (timeoutCreate cenv.timeouts) cenv.createDescribes).pending
        = ["pending"]
      ∧ (subnetCreateStateConf (timeoutCreate cenv.timeouts) cenv.createDescribes).target
        = ["available"]
      ∧ (subnetCreateStateConf (timeoutCreate cenv.timeouts) cenv.createDescribes).timeout
        = timeoutCreate cenv.timeouts)
    ∧ (cenv.timeouts.create = none →
      (subnetCreateStateConf (timeoutCreate cenv.timeouts) cenv.createDescribes).timeout
        = 10 * nanosPerMinute)
    ∧ (∀ e, cenv.createRes = .error e →
      resourceAwsSubnetCreate cenv d uenv
        = ([.createSubnetCall], some (.error (.wrapped "Error creating subnet" e))))
    ∧ (∀ sid e, cenv.createRes = .ok sid →
      (subnetCreateStateConf (timeoutCreate cenv.timeouts) cenv.createDescribes).runWait
        = .failure e →
      resourceAwsSubnetCreate cenv d uenv
        = ([.createSubnetCall],
           some (.error (.wrapped "Error waiting for subnet to become ready" e))))
    ∧ (∀ sid p, cenv.createRes = .ok sid →
      (subnetCreateStateConf (timeoutCreate cenv.timeouts) cenv.createDescribes).runWait
        = .success p →
      (resourceAwsSubnetCreate cenv d uenv).2 = (resourceAwsSubnetUpdate d uenv).2
      ∧ (resourceAwsSubnetCreate cenv d uenv).1
        = Call.createSubnetCall :: (resourceAwsSubnetUpdate d uenv).1) := by
  refine ⟨⟨rfl, rfl, rfl⟩, ?_, ?_, ?_, ?_⟩
  · intro h
    simp [subnetCreateStateConf, timeoutCreate, h]
  · intro e he
    simp [resourceAwsSubnetCreate, he]
  · intro sid e h1 h2
    simp [resourceAwsSubnetCreate, h1, h2]
  · intro sid p h1 h2
    simp [resourceAwsSubnetCreate, h1, h2, seqStep]

theorem create_delegates_to_update_witness :
    resourceAwsSubnetCreate ⟨⟨none, none⟩, .error (.plain "boom"), []⟩
        ⟨false, false, false, false, none, ""⟩
        ⟨none, none, none, [], .ok (some "assoc-1"), [], none, ⟨none, none⟩⟩
      = ([.createSubnetCall],
         some (.error (.wrapped "Error creating subnet" (.plain "boom"))))
    ∧ (resourceAwsSubnetCreate
          ⟨⟨none, none⟩, .ok "s-1", [⟨some ⟨[⟨"available", none⟩]⟩, none⟩]⟩
          ⟨false, false, false, false, none, ""⟩
          ⟨none, none, none, [], .ok (some "assoc-1"), [], none, ⟨none, none⟩⟩).2
      = (resourceAwsSubnetUpdate ⟨false, false, false, false, none, ""⟩
          ⟨none, none, none, [], .ok (some "assoc-1"), [], none, ⟨none, none⟩⟩).2
    ∧ (subnetCreateStateConf
        (timeoutCreate (⟨none, none⟩ : ConfiguredTimeouts)) []).timeout
      = 10 * nanosPerMinute :=
  ⟨(create_delegates_to_update ⟨⟨none, none⟩, .error (.plain "boom"), []⟩ _ _).2.2.1
      _ rfl,
   ((create_delegates_to_update
      ⟨⟨none, none⟩, .ok "s-1", [⟨some ⟨[⟨"available", none⟩]⟩, none⟩]⟩ _ _).2.2.2.2
      "s-1" (some ⟨"available", none⟩) rfl (by decide)).1,
   (create_delegates_to_update ⟨⟨none, none⟩, .ok "s-1", []⟩
      ⟨false, false, false, false, none, ""⟩
      ⟨none, none, none, [], .ok (some "assoc-1"), [], none, ⟨none, none⟩⟩).2.1 rfl⟩

/-- Claim C2: on a non-new resource with a changed `ipv6_cidr_block` and
an existing association id, the new block is associated only after the
disassociate call succeeded and the disassociation wait (pending
`{"disassociating", "associated"}`, target `{"disassociated"}`, 3-minute
timeout) returned success — in trace order — and if the disassociate call
or its wait fails, no associate call is made and the update returns an
error. -/
theorem update_disassociate_precedes_associate (d : UpdateData) (env : UpdateEnv)
    (aid : String) (h1 : d.hasChangeIpv6 = true) (h2 : d.isNewResource = false)
    (h3 : d.ipv6AssocId = some aid) :
    ((disassocStateConf aid env.disassocDescribes).pending
        = ["disassociating", "associated"]
      ∧ (disassocStateConf aid env.disassocDescribes).target = ["disassociated"]
      ∧ (disassocStateConf aid env.disassocDescribes).timeout = 3 * nanosPerMinute)
    ∧ (∀ b, Call.associateCidrCall b ∈ (resourceAwsSubnetUpdate d env).1 →
        env.disassociateErr = none
        ∧ (disassocStateConf aid env.disassocDescribes).runWait.isSuccess = true
        ∧ Call.disassociateCidrCall aid ∈ (resourceAwsSubnetUpdate d env).1)
    ∧ (∀ b l1 l2,
        (resourceAwsSubnetUpdate d env).1 = l1 ++ Call.associateCidrCall b :: l2 →
        Call.disassociateCidrCall aid ∈ l1 ∧ Call.cidrDisassocWait ∈ l1)
    ∧ ((env.disassociateErr ≠ none ∨
          (∃ e, (disassocStateConf aid env.disassocDescribes).runWait = .failure e)) →
        (∀ b, Call.associateCidrCall b ∉ (resourceAwsSubnetUpdate d env).1)
        ∧ ∃ err, (resourceAwsSubnetUpdate d env).2 = some (.error err)) := by
  have hcond : (d.hasChangeIpv6 && !d.isNewResource) = true := by simp [h1, h2]
  refine ⟨⟨rfl, rfl, rfl⟩, ?_, ?_, ?_⟩
  · intro b hb
    rcases update_trace_cases d env hb with hfix | ⟨_, hset, hmap, hmem⟩
    · simp at hfix
    · obtain ⟨hdis, hsucc⟩ := branch_assoc_mem d env aid h3 hmem
      cases hw : (disassocStateConf aid env.disassocDescribes).runWait with
      | panicked => rw [hw] at hsucc; simp [WaitResult.isSuccess] at hsucc
      | failure e => rw [hw] at hsucc; simp [WaitResult.isSuccess] at hsucc
      | success p =>
        obtain ⟨pre, tail, htr, hd, _, _⟩ :=
          update_trace_prefix_of_success d env aid hcond h3 hset hmap hdis p hw
        exact ⟨hdis, rfl, htr ▸ List.mem_append_left tail hd⟩
  · intro b l1 l2 heq
    have hb : Call.associateCidrCall b ∈ (resourceAwsSubnetUpdate d env).1 := by
      rw [heq]; simp
    rcases update_trace_cases d env hb with hfix | ⟨_, hset, hmap, hmem⟩
    · simp at hfix
    · obtain ⟨hdis, hsucc⟩ := branch_assoc_mem d env aid h3 hmem
      cases hw : (disassocStateConf aid env.disassocDescribes).runWait with
      | panicked => rw [hw] at hsucc; simp [WaitResult.isSuccess] at hsucc
      | failure e => rw [hw] at hsucc; simp [WaitResult.isSuccess] at hsucc
      | success p =>
        obtain ⟨pre, tail, htr, hd, hwt, hna⟩ :=
          update_trace_prefix_of_success d env aid hcond h3 hset hmap hdis p hw
        have hmeml := mem_left_of_append_cons (Call.associateCidrCall b)
          pre l1 tail l2 (hna b) (htr.symm.trans heq)
        exact ⟨hmeml _ hd, hmeml _ hwt⟩
  · intro hfail
    constructor
    · intro b hb
      rcases update_trace_cases d env hb with hfix | ⟨_, _, _, hmem⟩
      · simp at hfix
      · obtain ⟨hdis, hsucc⟩ := branch_assoc_mem d env aid h3 hmem
        rcases hfail with hne | ⟨e, hfe⟩
        · exact hne hdis
        · rw [hfe] at hsucc; simp [WaitResult.isSuccess] at hsucc
    · rcases hfail with hne | ⟨e, hfe⟩
      · cases hdd : env.disassociateErr with
        | none => exact absurd hdd hne
        | some e2 =>
          exact update_result_of_branch_error d env hcond e2
            (by simp [updateIpv6Branch, h3, hdd])
      · cases hdd : env.disassociateErr with
        | some e2 =>
          exact update_result_of_branch_error d env hcond e2
            (by simp [updateIpv6Branch, h3, hdd])
        | none =>
          exact update_result_of_branch_error d env hcond
            (.wrapped "Error waiting for IPv6 CIDR to become disassociated" e)
            (by simp [updateIpv6Branch, h3, hdd, hfe])

theorem update_disassociate_precedes_associate_witness :
    ((disassocStateConf "assoc-0" c2Env.disassocDescribes).pending
        = ["disassociating", "associated"]
      ∧ (disassocStateConf "assoc-0" c2Env.disassocDescribes).target
        = ["disassociated"]
      ∧ (disassocStateConf "assoc-0" c2Env.disassocDescribes).timeout
        = 3 * nanosPerMinute)
    ∧ (∀ b, Call.associateCidrCall b ∈ (resourceAwsSubnetUpdate c2Data c2Env).1 →
        c2Env.disassociateErr = none
        ∧ (disassocStateConf "assoc-0" c2Env.disassocDescribes).runWait.isSuccess
          = true
        ∧ Call.disassociateCidrCall "assoc-0"
          ∈ (resourceAwsSubnetUpdate c2Data c2Env).1)
    ∧ (∀ b l1 l2,
        (resourceAwsSubnetUpdate c2Data c2Env).1
          = l1 ++ Call.associateCidrCall b :: l2 →
        Call.disassociateCidrCall "assoc-0" ∈ l1 ∧ Call.cidrDisassocWait ∈ l1)
    ∧ ((c2Env.disassociateErr ≠ none ∨
          (∃ e, (disassocStateConf "assoc-0" c2Env.disassocDescribes).runWait
            = .failure e)) →
        (∀ b, Call.associateCidrCall b ∉ (resourceAwsSubnetUpdate c2Data c2Env).1)
        ∧ ∃ err, (resourceAwsSubnetUpdate c2Data c2Env).2 = some (.error err)) :=
  update_disassociate_precedes_associate c2Data c2Env "assoc-0" rfl rfl rfl

end TfAws
